import Mathlib

/-!
Verification of the touchpad gesture recognizer of the cosmic-pie-menu
repository (`src/gesture.rs`).

The Rust code is shallowly embedded as executable Lean definitions:

* `Instant` is modelled as a `Nat` timestamp in milliseconds; every function
  that calls `Instant::now()` or `Instant::elapsed()` in the source takes the
  current time `now : Nat` as an extra argument, and `start.elapsed()` becomes
  `now - start` (Rust's `elapsed` saturates at zero, as does `Nat` subtraction).
* `Duration` values (`tap_max_duration`, the debounce window) are `Nat`
  milliseconds; `i32` coordinates and thresholds are `Int`.
* Rust's fallible array indexing (`slots[i]` panics when out of bounds) is
  modelled in the `Option` monad: a panic is `none`.  The fixed-size array
  `[TouchSlot; MAX_SLOTS]` becomes a `List TouchSlot` that is created with
  length `MAX_SLOTS` and whose length is preserved by every update.
* Rust's `i64` division in `average_movement` truncates toward zero, which is
  `Int.tdiv` (not Lean's `/`, which is Euclidean).
-/

/-- Maximum number of touch slots to track (`const MAX_SLOTS: usize = 10`). -/
def MAX_SLOTS : Nat := 10

/-- Debounce time for 3-finger mode
(`const PENDING_TRIGGER_DEBOUNCE: Duration = Duration::from_millis(150)`),
in milliseconds. -/
def PENDING_TRIGGER_DEBOUNCE : Nat := 150

/-- Tracks position for a single touch slot (`struct TouchSlot`). -/
structure TouchSlot where
  /-- Whether this slot is currently active (finger touching). -/
  active : Bool
  /-- Current X position. -/
  x : Int
  /-- Current Y position. -/
  y : Int
  /-- Starting X position (when finger first touched). -/
  start_x : Option Int
  /-- Starting Y position (when finger first touched). -/
  start_y : Option Int
deriving DecidableEq, Repr

/-- `TouchSlot::default()`: inactive, zero positions, no start positions. -/
def TouchSlot.init : TouchSlot :=
  { active := false, x := 0, y := 0, start_x := none, start_y := none }

/-- The two evdev keys the recognizer watches, plus a catch-all for others. -/
inductive KeyCode where
  | BTN_TOOL_TRIPLETAP
  | BTN_TOOL_QUADTAP
  | otherKey
deriving DecidableEq, Repr

/-- The evdev absolute axes the recognizer watches, plus a catch-all. -/
inductive AxisType where
  | ABS_MT_SLOT
  | ABS_MT_TRACKING_ID
  | ABS_MT_POSITION_X
  | ABS_MT_POSITION_Y
  | ABS_X
  | ABS_Y
  | otherAxis
deriving DecidableEq, Repr

/-- The kind of an input event (`InputEventKind`). -/
inductive InputEventKind where
  | key (k : KeyCode)
  | absAxis (a : AxisType)
  | otherKind
deriving DecidableEq, Repr

/-- One evdev input event: its kind and its `i32` value. -/
structure InputEvent where
  kind : InputEventKind
  value : Int
deriving DecidableEq, Repr

/-- Multitouch tracker (`struct MultiTouchTracker`). -/
structure MultiTouchTracker where
  /-- Current slot being updated (set by ABS_MT_SLOT events). -/
  current_slot : Nat
  /-- Per-slot position data for up to MAX_SLOTS fingers. -/
  slots : List TouchSlot
  /-- Whether enough start positions were captured to begin tracking movement. -/
  start_captured : Bool
  /-- Time when first position event was seen. -/
  first_event_time : Option Nat
  /-- Minimum fingers required before capturing start positions. -/
  min_fingers_for_start : Nat
deriving DecidableEq, Repr

/-- `MultiTouchTracker::new(min_fingers)`. -/
def MultiTouchTracker.new (min_fingers : Nat) : MultiTouchTracker :=
  { current_slot := 0
    slots := List.replicate MAX_SLOTS TouchSlot.init
    start_captured := false
    first_event_time := none
    min_fingers_for_start := min_fingers }

/-- `mark_event`: record the time of the first position event. -/
def MultiTouchTracker.mark_event (t : MultiTouchTracker) (now : Nat) :
    MultiTouchTracker :=
  if t.first_event_time.isNone then { t with first_event_time := some now } else t

/-- `fingers_with_start`: count of fingers with valid start positions
(both X and Y captured). -/
def MultiTouchTracker.fingers_with_start (t : MultiTouchTracker) : Nat :=
  (t.slots.filter fun s => s.active && s.start_x.isSome && s.start_y.isSome).length

/-- `try_capture_start`: latch `start_captured` once enough fingers have
valid start positions. -/
def MultiTouchTracker.try_capture_start (t : MultiTouchTracker) : MultiTouchTracker :=
  if t.start_captured then t
  else if t.min_fingers_for_start ≤ t.fingers_with_start then
    { t with start_captured := true }
  else t

/-- The per-slot guard repeated in `average_movement` and
`max_movement_from_start`: `if slot.active { if let (Some(sx), Some(sy)) =
(slot.start_x, slot.start_y) { ... } }`.  Returns the movement delta
`(current - start)` per axis when the slot contributes, `none` otherwise. -/
def TouchSlot.delta (s : TouchSlot) : Option (Int × Int) :=
  if s.active then
    match s.start_x, s.start_y with
    | some sx, some sy => some (s.x - sx, s.y - sy)
    | _, _ => none
  else none

/-- The list of per-finger movement deltas accumulated by the loop in
`average_movement`: one `(dx, dy)` pair per active slot with captured start
positions, in slot order. -/
def MultiTouchTracker.contributions (t : MultiTouchTracker) : List (Int × Int) :=
  t.slots.filterMap TouchSlot.delta

/-- `average_movement`: mean of `(current - start)` over active slots with
captured starts; `(0, 0)` when no slot contributes.  The Rust loop sums
`total_dx`, `total_dy` and `count` over exactly the contributing slots and
then divides with `i64` division, which truncates toward zero (`Int.tdiv`). -/
def MultiTouchTracker.average_movement (t : MultiTouchTracker) : Int × Int :=
  let ds := t.contributions
  if ds.length = 0 then (0, 0)
  else ((ds.map Prod.fst).sum.tdiv ds.length, (ds.map Prod.snd).sum.tdiv ds.length)

/-- `max_movement_from_start`: running maximum of `|current - start|` over
both axes of every contributing slot, starting from 0. -/
def MultiTouchTracker.max_movement_from_start (t : MultiTouchTracker) : Int :=
  t.slots.foldl
    (fun m s =>
      match s.delta with
      | some d => Max.max (Max.max m |d.1|) |d.2|
      | none => m)
    0

/-- State machine for tracking a multi-finger gesture (`enum GestureState`). -/
inductive GestureState where
  /-- Waiting for fingers down. -/
  | Idle
  /-- Fingers are down, tracking time and position. -/
  | FingersDown (start : Nat) (tracker : MultiTouchTracker)
  /-- Tap detected, waiting to confirm it is not a 3→4 finger transition. -/
  | PendingTrigger (pending_since : Nat)
deriving DecidableEq, Repr

/-- Direction of a swipe gesture (`enum SwipeDirection`). -/
inductive SwipeDirection where
  | Up
  | Down
  | Left
  | Right
deriving DecidableEq, Repr

/-- Events returned from gesture event processing (`enum GestureEvent`). -/
inductive GestureEvent where
  | None
  | FingersDown
  | FingersUp
  | TriggerCancelled
  | SwipeDetected (d : SwipeDirection)
deriving DecidableEq, Repr

/-- `calculate_swipe_direction_from_delta`. -/
def calculate_swipe_direction_from_delta (dx dy : Int) : SwipeDirection :=
  if |dy| < |dx| then
    if 0 < dx then SwipeDirection.Right else SwipeDirection.Left
  else
    if 0 < dy then SwipeDirection.Down else SwipeDirection.Up

/-- The key watched for the configured finger count (`tap_key` in
`process_event`). -/
def tap_key (finger_count : Nat) : KeyCode :=
  if finger_count = 3 then KeyCode.BTN_TOOL_TRIPLETAP else KeyCode.BTN_TOOL_QUADTAP

/-- The cancellation key (`cancel_key` in `process_event`): in 3-finger mode
the 4-finger key cancels pending triggers. -/
def cancel_key (finger_count : Nat) : Option KeyCode :=
  if finger_count = 3 then some KeyCode.BTN_TOOL_QUADTAP else none

/-- Rust's `val as usize` on a 64-bit target for an `i32` value: sign-extend
and reinterpret, i.e. the value modulo `2 ^ 64`. -/
def usizeOfI32 (v : Int) : Nat := (v % (2 : Int) ^ 64).toNat

/-- The ABS_MT_POSITION_X branch body of `process_event` (after the
`slot < MAX_SLOTS` guard): capture the start on the first X sample, update the
current position, mark the slot active, record the event time and try to
capture the start set.  Indexing is fallible (`none` = panic). -/
def MultiTouchTracker.record_position_x (t : MultiTouchTracker) (val : Int)
    (now : Nat) : Option MultiTouchTracker :=
  match t.slots.get? t.current_slot with
  | none => none
  | some s =>
    let s := if s.start_x.isNone then { s with start_x := some val } else s
    let s := { s with x := val, active := true }
    some ((({ t with slots := t.slots.set t.current_slot s }).mark_event now).try_capture_start)

/-- The ABS_MT_POSITION_Y branch body of `process_event`, symmetric to
`record_position_x`. -/
def MultiTouchTracker.record_position_y (t : MultiTouchTracker) (val : Int)
    (now : Nat) : Option MultiTouchTracker :=
  match t.slots.get? t.current_slot with
  | none => none
  | some s =>
    let s := if s.start_y.isNone then { s with start_y := some val } else s
    let s := { s with y := val, active := true }
    some ((({ t with slots := t.slots.set t.current_slot s }).mark_event now).try_capture_start)

/-- The ABS_X branch body of `process_event`: legacy single-touch fallback
writing into slot 0. -/
def MultiTouchTracker.record_abs_x (t : MultiTouchTracker) (val : Int)
    (now : Nat) : Option MultiTouchTracker :=
  match t.slots.get? 0 with
  | none => none
  | some s =>
    let s := if s.start_x.isNone then { s with start_x := some val } else s
    let s := { s with x := val, active := true }
    some ((({ t with slots := t.slots.set 0 s }).mark_event now).try_capture_start)

/-- The ABS_Y branch body of `process_event`, symmetric to `record_abs_x`. -/
def MultiTouchTracker.record_abs_y (t : MultiTouchTracker) (val : Int)
    (now : Nat) : Option MultiTouchTracker :=
  match t.slots.get? 0 with
  | none => none
  | some s =>
    let s := if s.start_y.isNone then { s with start_y := some val } else s
    let s := { s with y := val, active := true }
    some ((({ t with slots := t.slots.set 0 s }).mark_event now).try_capture_start)

/-- `check_early_swipe`: movement threshold check on each position update. -/
def check_early_swipe (tracker : MultiTouchTracker) (threshold : Int) :
    Option SwipeDirection :=
  let p := tracker.average_movement
  let movement := Max.max |p.1| |p.2|
  if threshold ≤ movement then
    some (calculate_swipe_direction_from_delta p.1 p.2)
  else none

/-- `check_pending_trigger`: time-driven confirmation of a pending 3-finger
trigger.  Returns the updated state and whether the trigger fired. -/
def check_pending_trigger (state : GestureState) (now : Nat) :
    GestureState × Bool :=
  match state with
  | GestureState.PendingTrigger pending_since =>
    if PENDING_TRIGGER_DEBOUNCE ≤ now - pending_since then
      (GestureState.Idle, true)
    else (state, false)
  | _ => (state, false)

/-- The early-swipe check shared by the four position branches of
`process_event`: once `start_captured` holds, a detected early swipe resets
the state to `Idle`; otherwise the state keeps the updated tracker. -/
def early_swipe_outcome (start : Nat) (t : MultiTouchTracker)
    (swipe_threshold : Int) : GestureState × GestureEvent :=
  if t.start_captured then
    match check_early_swipe t swipe_threshold with
    | some dir => (GestureState.Idle, GestureEvent.SwipeDetected dir)
    | none => (GestureState.FingersDown start t, GestureEvent.None)
  else (GestureState.FingersDown start t, GestureEvent.None)

/-- `process_event`: process a single evdev input event against the current
state and configuration.  Returns the new state and the emitted
`GestureEvent` (the Rust function mutates `state` in place and returns the
event); `none` models a panic. -/
def process_event (event : InputEvent) (state : GestureState)
    (finger_count : Nat) (tap_max_duration : Nat) (tap_max_movement : Int)
    (swipe_threshold : Int) (now : Nat) :
    Option (GestureState × GestureEvent) :=
  match event.kind with
  | InputEventKind.key k =>
    if k = tap_key finger_count then
      if event.value = 1 then
        -- Fingers went down - record the time and start a fresh tracker
        some (GestureState.FingersDown now (MultiTouchTracker.new finger_count),
              GestureEvent.FingersDown)
      else if event.value = 0 then
        match state with
        | GestureState.FingersDown start tracker =>
          let duration := now - start
          let max_movement := tracker.max_movement_from_start
          if duration ≤ tap_max_duration ∧ max_movement ≤ tap_max_movement then
            if finger_count = 3 then
              some (GestureState.PendingTrigger now, GestureEvent.None)
            else
              some (GestureState.Idle, GestureEvent.FingersUp)
          else
            let p := tracker.average_movement
            some (GestureState.Idle,
                  GestureEvent.SwipeDetected
                    (calculate_swipe_direction_from_delta p.1 p.2))
        | _ => some (state, GestureEvent.None)
      else some (state, GestureEvent.None)
    else if cancel_key finger_count = some k ∧ event.value = 1 then
      match state with
      | GestureState.PendingTrigger _ =>
        some (GestureState.Idle, GestureEvent.TriggerCancelled)
      | _ => some (state, GestureEvent.None)
    else some (state, GestureEvent.None)
  | InputEventKind.absAxis axis =>
    match state with
    | GestureState.FingersDown start tracker =>
      match axis with
      | AxisType.ABS_MT_SLOT =>
        let slot := usizeOfI32 event.value
        if slot < MAX_SLOTS then
          some (GestureState.FingersDown start { tracker with current_slot := slot },
                GestureEvent.None)
        else some (GestureState.FingersDown start tracker, GestureEvent.None)
      | AxisType.ABS_MT_TRACKING_ID =>
        let slot := tracker.current_slot
        if slot < MAX_SLOTS then
          match tracker.slots.get? slot with
          | none => none
          | some s =>
            some (GestureState.FingersDown start
                    { tracker with
                        slots := tracker.slots.set slot
                          { s with active := decide (0 ≤ event.value) } },
                  GestureEvent.None)
        else some (GestureState.FingersDown start tracker, GestureEvent.None)
      | AxisType.ABS_MT_POSITION_X =>
        if tracker.current_slot < MAX_SLOTS then
          match tracker.record_position_x event.value now with
          | none => none
          | some t => some (early_swipe_outcome start t swipe_threshold)
        else some (GestureState.FingersDown start tracker, GestureEvent.None)
      | AxisType.ABS_MT_POSITION_Y =>
        if tracker.current_slot < MAX_SLOTS then
          match tracker.record_position_y event.value now with
          | none => none
          | some t => some (early_swipe_outcome start t swipe_threshold)
        else some (GestureState.FingersDown start tracker, GestureEvent.None)
      | AxisType.ABS_X =>
        match tracker.record_abs_x event.value now with
        | none => none
        | some t => some (early_swipe_outcome start t swipe_threshold)
      | AxisType.ABS_Y =>
        match tracker.record_abs_y event.value now with
        | none => none
        | some t => some (early_swipe_outcome start t swipe_threshold)
      | AxisType.otherAxis =>
        some (GestureState.FingersDown start tracker, GestureEvent.None)
    | _ => some (state, GestureEvent.None)
  | InputEventKind.otherKind => some (state, GestureEvent.None)

/-- Process a timestamped list of events through the state machine, as the
inner loop of `gesture_loop` does, collecting the emitted gesture events. -/
def run_events (evs : List (InputEvent × Nat)) (state : GestureState)
    (finger_count : Nat) (tap_max_duration : Nat) (tap_max_movement : Int)
    (swipe_threshold : Int) : Option (GestureState × List GestureEvent) :=
  match evs with
  | [] => some (state, [])
  | (e, now) :: rest =>
    match process_event e state finger_count tap_max_duration tap_max_movement
        swipe_threshold now with
    | none => none
    | some (s, out) =>
      match run_events rest s finger_count tap_max_duration tap_max_movement
          swipe_threshold with
      | none => none
      | some (s2, outs) => some (s2, out :: outs)

/-- The tracker evolution performed by the absolute-axis branches of
`process_event` while in `FingersDown`, independent of the early-swipe
check (which inspects, but never modifies, the updated tracker). -/
def apply_abs_axis (t : MultiTouchTracker) (a : AxisType) (val : Int)
    (now : Nat) : Option MultiTouchTracker :=
  match a with
  | AxisType.ABS_MT_SLOT =>
    let slot := usizeOfI32 val
    some (if slot < MAX_SLOTS then { t with current_slot := slot } else t)
  | AxisType.ABS_MT_TRACKING_ID =>
    if t.current_slot < MAX_SLOTS then
      match t.slots.get? t.current_slot with
      | none => none
      | some s =>
        some { t with
                 slots := t.slots.set t.current_slot
                   { s with active := decide (0 ≤ val) } }
    else some t
  | AxisType.ABS_MT_POSITION_X =>
    if t.current_slot < MAX_SLOTS then t.record_position_x val now else some t
  | AxisType.ABS_MT_POSITION_Y =>
    if t.current_slot < MAX_SLOTS then t.record_position_y val now else some t
  | AxisType.ABS_X => t.record_abs_x val now
  | AxisType.ABS_Y => t.record_abs_y val now
  | AxisType.otherAxis => some t

/-- Whether the `process_event` branch for axis `a` runs the early-swipe
check on the updated tracker (the four position branches do, the multitouch
ones only when the current slot passes the bounds guard). -/
def checks_early (a : AxisType) (t : MultiTouchTracker) : Bool :=
  match a with
  | AxisType.ABS_MT_POSITION_X => decide (t.current_slot < MAX_SLOTS)
  | AxisType.ABS_MT_POSITION_Y => decide (t.current_slot < MAX_SLOTS)
  | AxisType.ABS_X => true
  | AxisType.ABS_Y => true
  | _ => false

/-- Fold `apply_abs_axis` over a list of timestamped axis events. -/
def evolve (t : MultiTouchTracker) (evs : List (AxisType × Int × Nat)) :
    Option MultiTouchTracker :=
  match evs with
  | [] => some t
  | (a, v, now) :: rest =>
    match apply_abs_axis t a v now with
    | none => none
    | some t2 => evolve t2 rest

/-- The tracker update performed by `process_event` for each of the four
position axes (and `none` for non-position axes). -/
def position_axis_update (a : AxisType) (t : MultiTouchTracker) (val : Int)
    (now : Nat) : Option MultiTouchTracker :=
  match a with
  | AxisType.ABS_MT_POSITION_X => t.record_position_x val now
  | AxisType.ABS_MT_POSITION_Y => t.record_position_y val now
  | AxisType.ABS_X => t.record_abs_x val now
  | AxisType.ABS_Y => t.record_abs_y val now
  | _ => none

/-- The bounds guard `process_event` applies before a position-axis update:
the multitouch branches require the current slot to be in range; the legacy
single-touch branches have no guard. -/
def position_axis_slot_ok (a : AxisType) (t : MultiTouchTracker) : Prop :=
  match a with
  | AxisType.ABS_MT_POSITION_X => t.current_slot < MAX_SLOTS
  | AxisType.ABS_MT_POSITION_Y => t.current_slot < MAX_SLOTS
  | _ => True

/-- Spec-side description of `max_movement_from_start` (C7): the list of
absolute per-axis deviations of every active slot with captured start
positions. -/
def MultiTouchTracker.deviation_list (t : MultiTouchTracker) : List Int :=
  t.slots.foldr
    (fun s acc =>
      match s.delta with
      | some d => |d.1| :: |d.2| :: acc
      | none => acc)
    []

/-- Well-formedness of a tracker as guaranteed by the Rust types: the slot
array has exactly `MAX_SLOTS` entries and the current slot is in range. -/
def MultiTouchTracker.WF (t : MultiTouchTracker) : Prop :=
  t.slots.length = MAX_SLOTS ∧ t.current_slot < MAX_SLOTS

/-- Claim C5: direction classification picks the dominant axis by comparing
absolute values, resolves ties to the vertical branch, and is invariant under
scaling both components by the same positive factor. -/
theorem c5_direction_classification (dx dy : Int) :
    (|dy| < |dx| → 0 < dx →
      calculate_swipe_direction_from_delta dx dy = SwipeDirection.Right) ∧
    (|dy| < |dx| → dx ≤ 0 →
      calculate_swipe_direction_from_delta dx dy = SwipeDirection.Left) ∧
    (|dx| ≤ |dy| → 0 < dy →
      calculate_swipe_direction_from_delta dx dy = SwipeDirection.Down) ∧
    (|dx| ≤ |dy| → dy ≤ 0 →
      calculate_swipe_direction_from_delta dx dy = SwipeDirection.Up) ∧
    (∀ k : Int, 0 < k →
      calculate_swipe_direction_from_delta (k * dx) (k * dy) =
        calculate_swipe_direction_from_delta dx dy) := by
  refine ⟨?_, ?_, ?_, ?_, ?_⟩
  · intro h1 h2; simp [calculate_swipe_direction_from_delta, h1, h2]
  · intro h1 h2
    simp [calculate_swipe_direction_from_delta, h1, not_lt.mpr h2]
  · intro h1 h2
    simp [calculate_swipe_direction_from_delta, not_lt.mpr h1, h2]
  · intro h1 h2
    simp [calculate_swipe_direction_from_delta, not_lt.mpr h1, not_lt.mpr h2]
  · intro k hk
    have hka : 0 < |k| := abs_pos.mpr hk.ne'
    have h1 : |k * dy| < |k * dx| ↔ |dy| < |dx| := by
      rw [abs_mul, abs_mul]
      exact mul_lt_mul_left hka
    have h2 : 0 < k * dx ↔ 0 < dx := mul_pos_iff_of_pos_left hk
    have h3 : 0 < k * dy ↔ 0 < dy := mul_pos_iff_of_pos_left hk
    unfold calculate_swipe_direction_from_delta
    rcases lt_or_le |dy| |dx| with hcmp | hcmp
    · rw [if_pos (h1.mpr hcmp), if_pos hcmp]
      rcases lt_or_le 0 dx with hx | hx
      · rw [if_pos (h2.mpr hx), if_pos hx]
      · rw [if_neg (fun c => absurd (h2.mp c) (not_lt.mpr hx)),
          if_neg (not_lt.mpr hx)]
    · rw [if_neg (fun c => absurd (h1.mp c) (not_lt.mpr hcmp)),
        if_neg (not_lt.mpr hcmp)]
      rcases lt_or_le 0 dy with hy | hy
      · rw [if_pos (h3.mpr hy), if_pos hy]
      · rw [if_neg (fun c => absurd (h3.mp c) (not_lt.mpr hy)),
          if_neg (not_lt.mpr hy)]

/-- Claim C5 witness. -/
theorem c5_direction_witness :
    calculate_swipe_direction_from_delta 100 10 = SwipeDirection.Right ∧
    calculate_swipe_direction_from_delta 1000 100 = SwipeDirection.Right := by
  have h := (c5_direction_classification 100 10).2.2.2.2 10 (by norm_num)
  norm_num at h
  refine ⟨(c5_direction_classification 100 10).1 (by norm_num) (by norm_num), ?_⟩
  rw [h]
  exact (c5_direction_classification 100 10).1 (by norm_num) (by norm_num)

/-- Claim C9: `try_capture_start` only ever touches the `start_captured`
flag, latching it exactly when the count of active slots with both start
coordinates reaches `min_fingers_for_start`, and iterating it on an already
captured tracker changes nothing. -/
theorem c9_try_capture_start_latch (t : MultiTouchTracker) :
    t.try_capture_start =
      { t with start_captured :=
          t.start_captured ||
            decide (t.min_fingers_for_start ≤ t.fingers_with_start) } ∧
    (t.start_captured = true →
      ∀ n : Nat, MultiTouchTracker.try_capture_start^[n] t = t) := by
  constructor
  · obtain ⟨cs, sl, sc, fe, mf⟩ := t
    cases sc <;> simp [MultiTouchTracker.try_capture_start] <;> split <;> simp_all
  · intro h n
    have hfix : t.try_capture_start = t := by
      simp [MultiTouchTracker.try_capture_start, h]
    induction n with
    | zero => rfl
    | succ n ih => rw [Function.iterate_succ_apply, hfix, ih]

/-- Claim C9 witness. -/
theorem c9_try_capture_start_witness :
    MultiTouchTracker.try_capture_start^[3]
        { current_slot := 0, slots := List.replicate MAX_SLOTS TouchSlot.init,
          start_captured := true, first_event_time := none,
          min_fingers_for_start := 3 } =
      { current_slot := 0, slots := List.replicate MAX_SLOTS TouchSlot.init,
        start_captured := true, first_event_time := none,
        min_fingers_for_start := 3 } :=
  (c9_try_capture_start_latch _).2 rfl 3

/-- Claim C10: a press (value 1) of the configured finger-count key resets the
machine to `FingersDown` with a fresh tracker from any state, emitting
`FingersDown` — in particular a press during `PendingTrigger` silently
discards the pending tap without `FingersUp` or `TriggerCancelled`. -/
theorem c10_press_restarts (ev : InputEvent) (state : GestureState)
    (fc tmd : Nat) (tmm thr : Int) (now : Nat)
    (hk : ev.kind = InputEventKind.key (tap_key fc)) (hv : ev.value = 1) :
    process_event ev state fc tmd tmm thr now =
      some (GestureState.FingersDown now (MultiTouchTracker.new fc),
            GestureEvent.FingersDown) := by
  obtain ⟨kind, v⟩ := ev
  cases hk
  cases hv
  simp [process_event]

/-- Claim C10 witness: a press while a 3-finger tap is pending. -/
theorem c10_press_restarts_witness :
    process_event ⟨InputEventKind.key KeyCode.BTN_TOOL_TRIPLETAP, 1⟩
        (GestureState.PendingTrigger 7) 3 250 500 700 40 =
      some (GestureState.FingersDown 40 (MultiTouchTracker.new 3),
            GestureEvent.FingersDown) :=
  c10_press_restarts _ _ 3 250 500 700 40 rfl rfl

/-- Claim C1: releasing the configured finger-count key while in
`FingersDown` with a qualifying duration and movement yields
`PendingTrigger`/`None` in 3-finger mode and `Idle`/`FingersUp` in
4-finger mode. -/
theorem c1_tap_release (ev : InputEvent) (start : Nat)
    (tr : MultiTouchTracker) (fc tmd : Nat) (tmm thr : Int) (now : Nat)
    (hfc : fc = 3 ∨ fc = 4)
    (hk : ev.kind = InputEventKind.key (tap_key fc)) (hv : ev.value = 0)
    (hd : now - start ≤ tmd) (hm : tr.max_movement_from_start ≤ tmm) :
    process_event ev (GestureState.FingersDown start tr) fc tmd tmm thr now =
      if fc = 3 then
        some (GestureState.PendingTrigger now, GestureEvent.None)
      else some (GestureState.Idle, GestureEvent.FingersUp) := by
  obtain ⟨kind, v⟩ := ev
  cases hk
  cases hv
  rcases hfc with h | h <;> subst h <;> simp [process_event, hd, hm]

/-- Claim C1 witness: a 4-finger tap with no movement. -/
theorem c1_tap_release_witness :
    process_event ⟨InputEventKind.key KeyCode.BTN_TOOL_QUADTAP, 0⟩
        (GestureState.FingersDown 0 (MultiTouchTracker.new 4)) 4 250 500 700 100 =
      some (GestureState.Idle, GestureEvent.FingersUp) := by
  have h := c1_tap_release ⟨InputEventKind.key KeyCode.BTN_TOOL_QUADTAP, 0⟩ 0
    (MultiTouchTracker.new 4) 4 250 500 700 100
    (Or.inr rfl) rfl rfl (by decide) (by decide)
  simpa using h

/-- Claim C2: releasing the configured finger-count key while in
`FingersDown` with duration or movement exceeded yields `Idle` and
`SwipeDetected` of the direction classified from the average movement
(so `FingersUp` is not returned for that event). -/
theorem c2_swipe_release (ev : InputEvent) (start : Nat)
    (tr : MultiTouchTracker) (fc tmd : Nat) (tmm thr : Int) (now : Nat)
    (hk : ev.kind = InputEventKind.key (tap_key fc)) (hv : ev.value = 0)
    (hnot : ¬ (now - start ≤ tmd ∧ tr.max_movement_from_start ≤ tmm)) :
    process_event ev (GestureState.FingersDown start tr) fc tmd tmm thr now =
      some (GestureState.Idle,
            GestureEvent.SwipeDetected
              (calculate_swipe_direction_from_delta
                (tr.average_movement).1 (tr.average_movement).2)) := by
  obtain ⟨kind, v⟩ := ev
  cases hk
  cases hv
  simp only [process_event, if_pos rfl]
  norm_num
  intro h1 h2
  exact absurd ⟨by omega, h2⟩ hnot

/-- Claim C2 witness: a 4-finger release after the tap duration expired. -/
theorem c2_swipe_release_witness :
    process_event ⟨InputEventKind.key KeyCode.BTN_TOOL_QUADTAP, 0⟩
        (GestureState.FingersDown 0 (MultiTouchTracker.new 4)) 4 250 500 700 1000 =
      some (GestureState.Idle,
            GestureEvent.SwipeDetected SwipeDirection.Up) := by
  have h := c2_swipe_release ⟨InputEventKind.key KeyCode.BTN_TOOL_QUADTAP, 0⟩ 0
    (MultiTouchTracker.new 4) 4 250 500 700 1000
    rfl rfl (by decide)
  simpa using h

/-- Claim C8: out-of-range slot indices are dropped silently: an ABS_MT_SLOT
event with a negative or too-large `i32` value changes nothing, and
tracking-id/position events arriving while the selected slot is out of range
change nothing; in both cases no out-of-bounds access happens (the result is
`some`, never the `none` that models a panic) and the returned gesture event
is `GestureEvent.None`. -/
theorem c8_out_of_range_slots_dropped (state : GestureState) (start : Nat)
    (tr : MultiTouchTracker) (v : Int) (fc tmd : Nat) (tmm thr : Int)
    (now : Nat)
    (hslot : MAX_SLOTS ≤ tr.current_slot)
    (hv : (-(2 : Int) ^ 31 ≤ v ∧ v < 0) ∨ (10 ≤ v ∧ v < 2 ^ 31)) :
    process_event ⟨InputEventKind.absAxis AxisType.ABS_MT_SLOT, v⟩ state
        fc tmd tmm thr now = some (state, GestureEvent.None) ∧
    (∀ a, a = AxisType.ABS_MT_TRACKING_ID ∨ a = AxisType.ABS_MT_POSITION_X ∨
        a = AxisType.ABS_MT_POSITION_Y →
      process_event ⟨InputEventKind.absAxis a, v⟩
          (GestureState.FingersDown start tr) fc tmd tmm thr now =
        some (GestureState.FingersDown start tr, GestureEvent.None)) := by
  have hrange : ¬ usizeOfI32 v < MAX_SLOTS := by
    unfold usizeOfI32 MAX_SLOTS
    rcases hv with ⟨h1, h2⟩ | ⟨h1, h2⟩ <;> omega
  constructor
  · cases state <;> simp [process_event, hrange]
  · intro a ha
    have hs : ¬ tr.current_slot < MAX_SLOTS := Nat.not_lt.mpr hslot
    rcases ha with h | h | h <;> subst h <;> simp [process_event, hs]

/-- Claim C8 witness: a negative slot index from `Idle`, and multitouch
events with the tracker's current slot out of range. -/
theorem c8_out_of_range_witness :
    process_event ⟨InputEventKind.absAxis AxisType.ABS_MT_SLOT, -5⟩
        GestureState.Idle 4 250 500 700 99 =
      some (GestureState.Idle, GestureEvent.None) ∧
    process_event ⟨InputEventKind.absAxis AxisType.ABS_MT_TRACKING_ID, -5⟩
        (GestureState.FingersDown 0
          { current_slot := 12, slots := List.replicate MAX_SLOTS TouchSlot.init,
            start_captured := false, first_event_time := none,
            min_fingers_for_start := 4 }) 4 250 500 700 99 =
      some (GestureState.FingersDown 0
          { current_slot := 12, slots := List.replicate MAX_SLOTS TouchSlot.init,
            start_captured := false, first_event_time := none,
            min_fingers_for_start := 4 }, GestureEvent.None) := by
  have h := c8_out_of_range_slots_dropped GestureState.Idle 0
    { current_slot := 12, slots := List.replicate MAX_SLOTS TouchSlot.init,
      start_captured := false, first_event_time := none,
      min_fingers_for_start := 4 } (-5) 4 250 500 700 99 (by decide)
    (Or.inl ⟨by norm_num, by norm_num⟩)
  exact ⟨h.1, h.2 _ (Or.inl rfl)⟩

/-- Claim C4: in 3-finger mode, a 4-finger press during `PendingTrigger`
cancels the pending tap (state `Idle`, event `TriggerCancelled`);
`process_event` never returns `FingersUp` from `PendingTrigger` or from
`Idle` (so none is emitted for a cancelled cycle); and the time-driven
`check_pending_trigger` fires exactly when the debounce window has elapsed,
resetting the state to `Idle`. -/
theorem c4_pending_trigger_debounce (p now tmd : Nat) (tmm thr : Int) :
    (∀ n, process_event ⟨InputEventKind.key KeyCode.BTN_TOOL_QUADTAP, 1⟩
        (GestureState.PendingTrigger p) 3 tmd tmm thr n =
      some (GestureState.Idle, GestureEvent.TriggerCancelled)) ∧
    (∀ ev n r, process_event ev (GestureState.PendingTrigger p) 3 tmd tmm thr n =
        some r → r.2 ≠ GestureEvent.FingersUp) ∧
    (∀ ev n r, process_event ev GestureState.Idle 3 tmd tmm thr n =
        some r → r.2 ≠ GestureEvent.FingersUp) ∧
    ((check_pending_trigger (GestureState.PendingTrigger p) now).2 = true ↔
      PENDING_TRIGGER_DEBOUNCE ≤ now - p) ∧
    (PENDING_TRIGGER_DEBOUNCE ≤ now - p →
      check_pending_trigger (GestureState.PendingTrigger p) now =
        (GestureState.Idle, true)) ∧
    check_pending_trigger GestureState.Idle now = (GestureState.Idle, false) := by
  refine ⟨?_, ?_, ?_, ?_, ?_, ?_⟩
  · intro n; simp [process_event, tap_key, cancel_key]
  · intro ev n r h
    obtain ⟨kind, v⟩ := ev
    cases kind with
    | key k =>
      simp only [process_event] at h
      split_ifs at h <;> simp_all <;> (cases h; simp)
    | absAxis a =>
      simp only [process_event] at h
      cases h; simp
    | otherKind =>
      simp only [process_event] at h
      cases h; simp
  · intro ev n r h
    obtain ⟨kind, v⟩ := ev
    cases kind with
    | key k =>
      simp only [process_event] at h
      split_ifs at h <;> simp_all <;> (cases h; simp)
    | absAxis a =>
      simp only [process_event] at h
      cases h; simp
    | otherKind =>
      simp only [process_event] at h
      cases h; simp
  · simp only [check_pending_trigger]
    split <;> simp_all
  · intro h; simp [check_pending_trigger, h]
  · simp [check_pending_trigger]

/-- Claim C4 witness: cancellation fires at a concrete input, an event in
`PendingTrigger` is not `FingersUp`, and the debounce check fires after
150ms. -/
theorem c4_pending_trigger_witness :
    process_event ⟨InputEventKind.key KeyCode.BTN_TOOL_QUADTAP, 1⟩
        (GestureState.PendingTrigger 5) 3 250 500 700 80 =
      some (GestureState.Idle, GestureEvent.TriggerCancelled) ∧
    (GestureState.PendingTrigger 5, GestureEvent.None).2 ≠ GestureEvent.FingersUp ∧
    check_pending_trigger (GestureState.PendingTrigger 5) 200 =
      (GestureState.Idle, true) := by
  have h := c4_pending_trigger_debounce 5 200 250 500 700
  exact ⟨h.1 80,
    h.2.1 ⟨InputEventKind.key KeyCode.otherKey, 1⟩ 9
      (GestureState.PendingTrigger 5, GestureEvent.None) (by decide),
    h.2.2.2.2.1 (by decide)⟩

/-- The early-swipe branch shared by the four position-axis cases, written as
a single `if` on the claim's condition. -/
theorem early_swipe_outcome_eq (start : Nat) (t : MultiTouchTracker)
    (thr : Int) :
    early_swipe_outcome start t thr =
      if t.start_captured = true ∧
          thr ≤ Max.max |(t.average_movement).1| |(t.average_movement).2| then
        (GestureState.Idle,
         GestureEvent.SwipeDetected
           (calculate_swipe_direction_from_delta
             (t.average_movement).1 (t.average_movement).2))
      else (GestureState.FingersDown start t, GestureEvent.None) := by
  unfold early_swipe_outcome check_early_swipe
  cases h : t.start_captured <;> simp only [h]
  · simp
  · split_ifs with h1 h2 h2 <;> simp_all

/-- Claim C3: a position-axis event processed in `FingersDown` with an
in-range slot updates the tracker; if the updated tracker has captured its
start positions and the average movement magnitude reaches the swipe
threshold, the state resets to `Idle` and `SwipeDetected` of the direction
classified from the average movement is returned; otherwise the state keeps
the updated tracker and no `SwipeDetected` is returned. -/
theorem c3_early_swipe (a : AxisType) (v : Int) (start : Nat)
    (tr t2 : MultiTouchTracker) (fc tmd : Nat) (tmm thr : Int) (now : Nat)
    (hup : position_axis_update a tr v now = some t2)
    (hok : position_axis_slot_ok a tr) :
    process_event ⟨InputEventKind.absAxis a, v⟩
        (GestureState.FingersDown start tr) fc tmd tmm thr now =
      some (if t2.start_captured = true ∧
              thr ≤ Max.max |(t2.average_movement).1| |(t2.average_movement).2| then
              (GestureState.Idle,
               GestureEvent.SwipeDetected
                 (calculate_swipe_direction_from_delta
                   (t2.average_movement).1 (t2.average_movement).2))
            else (GestureState.FingersDown start t2, GestureEvent.None)) := by
  rw [← early_swipe_outcome_eq start t2 thr]
  cases a <;> simp only [position_axis_update] at hup
  case ABS_MT_POSITION_X =>
    have hs : tr.current_slot < MAX_SLOTS := hok
    simp [process_event, hs, hup]
  case ABS_MT_POSITION_Y =>
    have hs : tr.current_slot < MAX_SLOTS := hok
    simp [process_event, hs, hup]
  case ABS_X => simp [process_event, hup]
  case ABS_Y => simp [process_event, hup]
  all_goals cases hup

/-- Claim C3 witness: a legacy single-touch X event that crosses the
threshold triggers an early swipe to the right. -/
theorem c3_early_swipe_witness :
    process_event ⟨InputEventKind.absAxis AxisType.ABS_X, 500⟩
        (GestureState.FingersDown 0
          { current_slot := 0,
            slots := { active := true, x := 0, y := 0, start_x := some 0,
                       start_y := some 0 } :: List.replicate 9 TouchSlot.init,
            start_captured := true, first_event_time := some 0,
            min_fingers_for_start := 1 }) 4 250 500 100 7 =
      some (GestureState.Idle,
            GestureEvent.SwipeDetected SwipeDirection.Right) := by
  have h := c3_early_swipe AxisType.ABS_X 500 0
    { current_slot := 0,
      slots := { active := true, x := 0, y := 0, start_x := some 0,
                 start_y := some 0 } :: List.replicate 9 TouchSlot.init,
      start_captured := true, first_event_time := some 0,
      min_fingers_for_start := 1 }
    { current_slot := 0,
      slots := { active := true, x := 500, y := 0, start_x := some 0,
                 start_y := some 0 } :: List.replicate 9 TouchSlot.init,
      start_captured := true, first_event_time := some 0,
      min_fingers_for_start := 1 }
    4 250 500 100 7 (by decide) trivial
  rw [h]
  decide

/-- A fold of `Max.max` over integers starting at 0 is nonnegative. -/
theorem foldr_max_nonneg (l : List Int) : 0 ≤ l.foldr Max.max 0 := by
  induction l with
  | nil => simp
  | cons a l ih => exact le_max_of_le_right ih

/-- Every element is bounded by the fold of `Max.max` starting at 0. -/
theorem le_foldr_max (l : List Int) (x : Int) (hx : x ∈ l) :
    x ≤ l.foldr Max.max 0 := by
  induction l with
  | nil => cases hx
  | cons a l ih =>
    rcases List.mem_cons.mp hx with h | h
    · subst h; exact le_max_left _ _
    · exact le_max_of_le_right (ih h)

/-- The running-maximum fold of `max_movement_from_start` computes the
maximum of the accumulator and all per-axis deviations. -/
theorem foldl_max_deviations (l : List TouchSlot) :
    ∀ m : Int, 0 ≤ m →
      l.foldl
          (fun m s =>
            match s.delta with
            | some d => Max.max (Max.max m |d.1|) |d.2|
            | none => m)
          m =
        Max.max m
          ((l.foldr
              (fun s acc =>
                match s.delta with
                | some d => |d.1| :: |d.2| :: acc
                | none => acc)
              []).foldr Max.max 0) := by
  induction l with
  | nil => intro m hm; simp [max_eq_left hm]
  | cons s l ih =>
    intro m hm
    cases hd : s.delta with
    | none => simp only [List.foldl_cons, List.foldr_cons, hd]; exact ih m hm
    | some d =>
      simp only [List.foldl_cons, List.foldr_cons, hd]
      rw [ih (Max.max (Max.max m |d.1|) |d.2|)
        (le_trans hm (le_trans (le_max_left _ _) (le_max_left _ _)))]
      simp [max_assoc]

/-- `max_movement_from_start` as the maximum of the deviation list. -/
theorem max_movement_eq_foldr (t : MultiTouchTracker) :
    t.max_movement_from_start = t.deviation_list.foldr Max.max 0 := by
  unfold MultiTouchTracker.max_movement_from_start MultiTouchTracker.deviation_list
  rw [foldl_max_deviations t.slots 0 le_rfl]
  exact max_eq_right (foldr_max_nonneg _)

/-- `max_movement_from_start` is never negative. -/
theorem max_movement_nonneg (t : MultiTouchTracker) :
    0 ≤ t.max_movement_from_start := by
  rw [max_movement_eq_foldr]
  exact foldr_max_nonneg _

/-- Claim C7: `max_movement_from_start` equals the maximum (with 0 for the
empty case) of the absolute per-axis deviations over all active slots with
captured start positions, and is 0 when no slot contributes. -/
theorem c7_max_movement_from_start (t : MultiTouchTracker) :
    t.max_movement_from_start = t.deviation_list.foldr Max.max 0 ∧
    (t.deviation_list = [] → t.max_movement_from_start = 0) :=
  ⟨max_movement_eq_foldr t,
   fun h0 => by rw [max_movement_eq_foldr, h0]; rfl⟩

/-- Claim C7 witness: a fresh tracker has no contributing slot and maximum
movement 0. -/
theorem c7_max_movement_witness :
    (MultiTouchTracker.new 4).max_movement_from_start = 0 :=
  (c7_max_movement_from_start (MultiTouchTracker.new 4)).2 (by decide)

/-- Triangle inequality for a list sum of integers. -/
theorem abs_list_sum_le (l : List Int) : |l.sum| ≤ (l.map fun x => |x|).sum := by
  induction l with
  | nil => simp
  | cons a l ih =>
    simp only [List.sum_cons, List.map_cons]
    exact le_trans (abs_add a l.sum) (by exact add_le_add_left ih _)

/-- Truncating division bound: if `|a| ≤ n * M` then `|a.tdiv n| ≤ M`. -/
theorem tdiv_abs_le (a M : Int) (n : Nat) (hn : 0 < n) (hM : 0 ≤ M)
    (h : |a| ≤ (n : Int) * M) : |a.tdiv (n : Int)| ≤ M := by
  rw [Int.abs_eq_natAbs, Int.natAbs_tdiv, Int.natAbs_ofNat]
  have hMt : ((M.toNat : Int)) = M := Int.toNat_of_nonneg hM
  have h1 : a.natAbs ≤ n * M.toNat := by
    have h2 : ((a.natAbs : Int)) ≤ ((n * M.toNat : Nat) : Int) := by
      push_cast
      rw [hMt]
      exact h
    exact_mod_cast h2
  have h3 : a.natAbs / n ≤ M.toNat := Nat.div_le_of_le_mul h1
  calc ((a.natAbs.div n : Nat) : Int) ≤ ((M.toNat : Nat) : Int) := by
        exact_mod_cast h3
    _ = M := hMt

/-- Every contributing slot's per-axis absolute deviations appear in the
deviation list. -/
theorem contrib_mem_deviations (l : List TouchSlot) (p : Int × Int)
    (hp : p ∈ l.filterMap TouchSlot.delta) :
    |p.1| ∈ l.foldr
        (fun s acc =>
          match s.delta with
          | some d => |d.1| :: |d.2| :: acc
          | none => acc)
        [] ∧
    |p.2| ∈ l.foldr
        (fun s acc =>
          match s.delta with
          | some d => |d.1| :: |d.2| :: acc
          | none => acc)
        [] := by
  induction l with
  | nil => cases hp
  | cons s l ih =>
    rw [List.filterMap_cons] at hp
    cases hd : s.delta with
    | none =>
      rw [hd] at hp
      have h := ih hp
      simp only [List.foldr_cons, hd]
      exact h
    | some d =>
      rw [hd] at hp
      simp only [List.foldr_cons, hd]
      rcases List.mem_cons.mp hp with h | h
      · subst h
        exact ⟨List.mem_cons_self _ _,
               List.mem_cons_of_mem _ (List.mem_cons_self _ _)⟩
      · have h2 := ih h
        exact ⟨List.mem_cons_of_mem _ (List.mem_cons_of_mem _ h2.1),
               List.mem_cons_of_mem _ (List.mem_cons_of_mem _ h2.2)⟩

/-- Both components of `average_movement` are bounded in absolute value by
any bound on `max_movement_from_start`. -/
theorem average_movement_abs_le (t : MultiTouchTracker) (M : Int)
    (hmax : t.max_movement_from_start ≤ M) :
    |(t.average_movement).1| ≤ M ∧ |(t.average_movement).2| ≤ M := by
  have hM : 0 ≤ M := le_trans (max_movement_nonneg t) hmax
  have hdev : ∀ x ∈ t.deviation_list, x ≤ M := fun x hx =>
    le_trans (by rw [max_movement_eq_foldr]; exact le_foldr_max _ _ hx) hmax
  have hcontrib : ∀ p ∈ t.contributions, |p.1| ≤ M ∧ |p.2| ≤ M := by
    intro p hp
    have h := contrib_mem_deviations t.slots p hp
    exact ⟨hdev _ h.1, hdev _ h.2⟩
  unfold MultiTouchTracker.average_movement
  by_cases hlen : t.contributions.length = 0
  · simp [hlen, hM]
  · have hpos : 0 < t.contributions.length := Nat.pos_of_ne_zero hlen
    simp only [hlen, if_false]
    constructor
    · apply tdiv_abs_le _ _ _ hpos hM
      calc |(t.contributions.map Prod.fst).sum|
          ≤ ((t.contributions.map Prod.fst).map fun x => |x|).sum :=
            abs_list_sum_le _
        _ ≤ ((t.contributions.map Prod.fst).map fun x => |x|).length •
              M := by
            apply List.sum_le_card_nsmul
            intro x hx
            simp only [List.mem_map] at hx
            obtain ⟨y, hy, hxy⟩ := hx
            obtain ⟨p, hp, hpy⟩ := hy
            subst hxy; subst hpy
            exact (hcontrib p hp).1
        _ = (t.contributions.length : Int) * M := by
            simp [nsmul_eq_mul]
    · apply tdiv_abs_le _ _ _ hpos hM
      calc |(t.contributions.map Prod.snd).sum|
          ≤ ((t.contributions.map Prod.snd).map fun x => |x|).sum :=
            abs_list_sum_le _
        _ ≤ ((t.contributions.map Prod.snd).map fun x => |x|).length •
              M := by
            apply List.sum_le_card_nsmul
            intro x hx
            simp only [List.mem_map] at hx
            obtain ⟨y, hy, hxy⟩ := hx
            obtain ⟨p, hp, hpy⟩ := hy
            subst hxy; subst hpy
            exact (hcontrib p hp).2
        _ = (t.contributions.length : Int) * M := by
            simp [nsmul_eq_mul]

/-- If the tracker's maximum movement is within the tap bound and the swipe
threshold is strictly larger, the early-swipe branch does not fire. -/
theorem early_swipe_outcome_no_fire (start : Nat) (t : MultiTouchTracker)
    (tmm thr : Int) (hmax : t.max_movement_from_start ≤ tmm)
    (hthr : tmm < thr) :
    early_swipe_outcome start t thr =
      (GestureState.FingersDown start t, GestureEvent.None) := by
  have havg := average_movement_abs_le t tmm hmax
  have hmov : Max.max |(t.average_movement).1| |(t.average_movement).2| < thr :=
    lt_of_le_of_lt (max_le havg.1 havg.2) hthr
  rw [early_swipe_outcome_eq]
  rw [if_neg]
  intro hc
  exact absurd hc.2 (not_le.mpr hmov)

/-- `process_event` on an absolute-axis event in `FingersDown` evolves the
tracker by `apply_abs_axis` and, when the branch carries the early-swipe
check, applies it to the updated tracker. -/
theorem process_event_abs_eq (a : AxisType) (v : Int) (start now : Nat)
    (t : MultiTouchTracker) (fc tmd : Nat) (tmm thr : Int) :
    process_event ⟨InputEventKind.absAxis a, v⟩
        (GestureState.FingersDown start t) fc tmd tmm thr now =
      match apply_abs_axis t a v now with
      | none => none
      | some t2 =>
        if checks_early a t then some (early_swipe_outcome start t2 thr)
        else some (GestureState.FingersDown start t2, GestureEvent.None) := by
  cases a
  case ABS_MT_SLOT =>
    by_cases h : usizeOfI32 v < MAX_SLOTS <;>
      simp [process_event, apply_abs_axis, checks_early, h]
  case ABS_MT_TRACKING_ID =>
    by_cases h : t.current_slot < MAX_SLOTS
    · cases hg : t.slots[t.current_slot]? <;>
        simp [process_event, apply_abs_axis, checks_early, h, hg]
    · simp [process_event, apply_abs_axis, checks_early, h]
  case ABS_MT_POSITION_X =>
    by_cases h : t.current_slot < MAX_SLOTS
    · cases hg : t.record_position_x v now <;>
        simp [process_event, apply_abs_axis, checks_early, h, hg]
    · simp [process_event, apply_abs_axis, checks_early, h]
  case ABS_MT_POSITION_Y =>
    by_cases h : t.current_slot < MAX_SLOTS
    · cases hg : t.record_position_y v now <;>
        simp [process_event, apply_abs_axis, checks_early, h, hg]
    · simp [process_event, apply_abs_axis, checks_early, h]
  case ABS_X =>
    cases hg : t.record_abs_x v now <;>
      simp [process_event, apply_abs_axis, checks_early, hg]
  case ABS_Y =>
    cases hg : t.record_abs_y v now <;>
      simp [process_event, apply_abs_axis, checks_early, hg]
  case otherAxis =>
    simp [process_event, apply_abs_axis, checks_early]

/-- `mark_event` leaves the slot array unchanged. -/
theorem mark_event_slots (t : MultiTouchTracker) (now : Nat) :
    (t.mark_event now).slots = t.slots := by
  unfold MultiTouchTracker.mark_event; split <;> rfl

/-- `mark_event` leaves the current slot unchanged. -/
theorem mark_event_current_slot (t : MultiTouchTracker) (now : Nat) :
    (t.mark_event now).current_slot = t.current_slot := by
  unfold MultiTouchTracker.mark_event; split <;> rfl

/-- `try_capture_start` leaves the slot array unchanged. -/
theorem try_capture_slots (t : MultiTouchTracker) :
    t.try_capture_start.slots = t.slots := by
  unfold MultiTouchTracker.try_capture_start; split_ifs <;> rfl

/-- `try_capture_start` leaves the current slot unchanged. -/
theorem try_capture_current_slot (t : MultiTouchTracker) :
    t.try_capture_start.current_slot = t.current_slot := by
  unfold MultiTouchTracker.try_capture_start; split_ifs <;> rfl

/-- The position-recording helpers preserve the slot-array length and the
current slot. -/
theorem record_position_x_shape (t : MultiTouchTracker) (v : Int) (now : Nat)
    (t2 : MultiTouchTracker) (h : t.record_position_x v now = some t2) :
    t2.slots.length = t.slots.length ∧ t2.current_slot = t.current_slot := by
  unfold MultiTouchTracker.record_position_x at h
  cases hg : t.slots.get? t.current_slot with
  | none => rw [hg] at h; cases h
  | some s =>
    rw [hg] at h
    injection h with h
    subst h
    refine ⟨?_, ?_⟩
    · rw [try_capture_slots, mark_event_slots]
      exact List.length_set t.slots _ _
    · rw [try_capture_current_slot, mark_event_current_slot]

/-- As `record_position_x_shape`, for the Y axis. -/
theorem record_position_y_shape (t : MultiTouchTracker) (v : Int) (now : Nat)
    (t2 : MultiTouchTracker) (h : t.record_position_y v now = some t2) :
    t2.slots.length = t.slots.length ∧ t2.current_slot = t.current_slot := by
  unfold MultiTouchTracker.record_position_y at h
  cases hg : t.slots.get? t.current_slot with
  | none => rw [hg] at h; cases h
  | some s =>
    rw [hg] at h
    injection h with h
    subst h
    refine ⟨?_, ?_⟩
    · rw [try_capture_slots, mark_event_slots]
      exact List.length_set t.slots _ _
    · rw [try_capture_current_slot, mark_event_current_slot]

/-- As `record_position_x_shape`, for the legacy X axis. -/
theorem record_abs_x_shape (t : MultiTouchTracker) (v : Int) (now : Nat)
    (t2 : MultiTouchTracker) (h : t.record_abs_x v now = some t2) :
    t2.slots.length = t.slots.length ∧ t2.current_slot = t.current_slot := by
  unfold MultiTouchTracker.record_abs_x at h
  cases hg : t.slots.get? 0 with
  | none => rw [hg] at h; cases h
  | some s =>
    rw [hg] at h
    injection h with h
    subst h
    refine ⟨?_, ?_⟩
    · rw [try_capture_slots, mark_event_slots]
      exact List.length_set t.slots _ _
    · rw [try_capture_current_slot, mark_event_current_slot]

/-- As `record_position_x_shape`, for the legacy Y axis. -/
theorem record_abs_y_shape (t : MultiTouchTracker) (v : Int) (now : Nat)
    (t2 : MultiTouchTracker) (h : t.record_abs_y v now = some t2) :
    t2.slots.length = t.slots.length ∧ t2.current_slot = t.current_slot := by
  unfold MultiTouchTracker.record_abs_y at h
  cases hg : t.slots.get? 0 with
  | none => rw [hg] at h; cases h
  | some s =>
    rw [hg] at h
    injection h with h
    subst h
    refine ⟨?_, ?_⟩
    · rw [try_capture_slots, mark_event_slots]
      exact List.length_set t.slots _ _
    · rw [try_capture_current_slot, mark_event_current_slot]

/-- On a well-formed tracker, every absolute-axis update succeeds (no
out-of-bounds indexing) and preserves well-formedness. -/
theorem apply_abs_axis_WF (t : MultiTouchTracker) (a : AxisType) (v : Int)
    (now : Nat) (hw : t.WF) :
    ∃ t2, apply_abs_axis t a v now = some t2 ∧ t2.WF := by
  obtain ⟨hlen, hcs⟩ := hw
  have hi : t.current_slot < t.slots.length := by rw [hlen]; exact hcs
  have h0 : 0 < t.slots.length := by rw [hlen]; decide
  have hget := List.get?_eq_get hi
  have hget0 := List.get?_eq_get h0
  have hgetE : t.slots[t.current_slot]? =
      some (t.slots.get ⟨t.current_slot, hi⟩) := by
    rw [← List.get?_eq_getElem?]; exact hget
  cases a
  case ABS_MT_SLOT =>
    by_cases h : usizeOfI32 v < MAX_SLOTS
    · refine ⟨{ t with current_slot := usizeOfI32 v }, ?_, hlen, h⟩
      simp [apply_abs_axis, h]
    · refine ⟨t, ?_, hlen, hcs⟩
      simp [apply_abs_axis, h]
  case ABS_MT_TRACKING_ID =>
    cases hr : apply_abs_axis t AxisType.ABS_MT_TRACKING_ID v now with
    | none =>
      exfalso
      simp only [apply_abs_axis] at hr
      rw [if_pos hcs, hget] at hr
      cases hr
    | some t2 =>
      refine ⟨t2, rfl, ?_⟩
      simp only [apply_abs_axis] at hr
      rw [if_pos hcs, hget] at hr
      injection hr with hr
      subst hr
      refine ⟨?_, hcs⟩
      simp [hlen]
  case ABS_MT_POSITION_X =>
    cases hr : t.record_position_x v now with
    | none =>
      exfalso
      unfold MultiTouchTracker.record_position_x at hr
      rw [hget] at hr
      cases hr
    | some t2 =>
      have hs := record_position_x_shape t v now t2 hr
      refine ⟨t2, ?_, ?_, ?_⟩
      · simp [apply_abs_axis, hcs, hr]
      · rw [hs.1]; exact hlen
      · rw [hs.2]; exact hcs
  case ABS_MT_POSITION_Y =>
    cases hr : t.record_position_y v now with
    | none =>
      exfalso
      unfold MultiTouchTracker.record_position_y at hr
      rw [hget] at hr
      cases hr
    | some t2 =>
      have hs := record_position_y_shape t v now t2 hr
      refine ⟨t2, ?_, ?_, ?_⟩
      · simp [apply_abs_axis, hcs, hr]
      · rw [hs.1]; exact hlen
      · rw [hs.2]; exact hcs
  case ABS_X =>
    cases hr : t.record_abs_x v now with
    | none =>
      exfalso
      unfold MultiTouchTracker.record_abs_x at hr
      rw [hget0] at hr
      cases hr
    | some t2 =>
      have hs := record_abs_x_shape t v now t2 hr
      refine ⟨t2, ?_, ?_, ?_⟩
      · simp [apply_abs_axis, hr]
      · rw [hs.1]; exact hlen
      · rw [hs.2]; exact hcs
  case ABS_Y =>
    cases hr : t.record_abs_y v now with
    | none =>
      exfalso
      unfold MultiTouchTracker.record_abs_y at hr
      rw [hget0] at hr
      cases hr
    | some t2 =>
      have hs := record_abs_y_shape t v now t2 hr
      refine ⟨t2, ?_, ?_, ?_⟩
      · simp [apply_abs_axis, hr]
      · rw [hs.1]; exact hlen
      · rw [hs.2]; exact hcs
  case otherAxis =>
    exact ⟨t, rfl, hlen, hcs⟩

/-- `run_events` splits over list append. -/
theorem run_events_append (l1 l2 : List (InputEvent × Nat)) (s : GestureState)
    (fc tmd : Nat) (tmm thr : Int) :
    run_events (l1 ++ l2) s fc tmd tmm thr =
      match run_events l1 s fc tmd tmm thr with
      | none => none
      | some (s1, o1) =>
        match run_events l2 s1 fc tmd tmm thr with
        | none => none
        | some (s2, o2) => some (s2, o1 ++ o2) := by
  induction l1 generalizing s with
  | nil =>
    cases h : run_events l2 s fc tmd tmm thr with
    | none => simp [run_events, h]
    | some p => obtain ⟨s2, o2⟩ := p; simp [run_events, h]
  | cons e l1 ih =>
    obtain ⟨ev, nw⟩ := e
    simp only [List.cons_append, run_events]
    cases hp : process_event ev s fc tmd tmm thr nw with
    | none => rfl
    | some p =>
      obtain ⟨s1, o1⟩ := p
      simp only [List.append_eq]
      rw [ih s1]
      cases h1 : run_events l1 s1 fc tmd tmm thr with
      | none => rfl
      | some q =>
        obtain ⟨s2, o2⟩ := q
        cases h2 : run_events l2 s2 fc tmd tmm thr with
        | none => simp [h2]
        | some r => obtain ⟨s3, o3⟩ := r; simp [h2]

/-- While fingers are down in 4-finger mode, a sequence of absolute-axis
events whose tracker evolution keeps the maximum movement within the tap
bound (strictly below the swipe threshold) is processed without firing any
gesture: the state stays `FingersDown` with the evolved tracker and every
emitted event is `None`. -/
theorem run_mids (tmd : Nat) (tmm thr : Int) (hthr : tmm < thr) :
    ∀ (mids : List (AxisType × Int × Nat)) (t : MultiTouchTracker) (start : Nat),
      t.WF →
      (∀ n t2, evolve t (mids.take n) = some t2 →
        t2.max_movement_from_start ≤ tmm) →
      ∃ t2, evolve t mids = some t2 ∧ t2.WF ∧
        run_events (mids.map fun m => (⟨InputEventKind.absAxis m.1, m.2.1⟩, m.2.2))
            (GestureState.FingersDown start t) 4 tmd tmm thr =
          some (GestureState.FingersDown start t2,
                List.replicate mids.length GestureEvent.None) := by
  intro mids
  induction mids with
  | nil =>
    intro t start hw _
    exact ⟨t, rfl, hw, rfl⟩
  | cons m rest ih =>
    intro t start hw hmov
    obtain ⟨a, v, nw⟩ := m
    obtain ⟨t1, happ, hw1⟩ := apply_abs_axis_WF t a v nw hw
    have ht1max : t1.max_movement_from_start ≤ tmm := by
      apply hmov 1 t1
      simp [evolve, happ]
    have hproc : process_event ⟨InputEventKind.absAxis a, v⟩
        (GestureState.FingersDown start t) 4 tmd tmm thr nw =
        some (GestureState.FingersDown start t1, GestureEvent.None) := by
      rw [process_event_abs_eq, happ]
      by_cases hc : checks_early a t = true
      · simp [hc, early_swipe_outcome_no_fire start t1 tmm thr ht1max hthr]
      · simp [hc]
    have hmov2 : ∀ n t2, evolve t1 (rest.take n) = some t2 →
        t2.max_movement_from_start ≤ tmm := by
      intro n t2 h
      apply hmov (n + 1) t2
      simp [List.take_succ_cons, evolve, happ, h]
    obtain ⟨t2, hev, hw2, hrun⟩ := ih t1 start hw1 hmov2
    refine ⟨t2, ?_, hw2, ?_⟩
    · simp [evolve, happ, hev]
    · simp [run_events, hproc, hrun, List.replicate_succ]

/-- Claim C6 (amended): in 4-finger mode, a qualifying press, absolute-axis
events whose tracker evolution keeps `max_movement_from_start` within
`tap_max_movement`, and a release within `tap_max_duration` produce exactly
one `FingersUp` and no `SwipeDetected` — provided `tap_max_movement` is
strictly below the swipe activation threshold (otherwise the early-swipe
check can fire; see the counterexample). -/
theorem c6_four_finger_tap (mids : List (AxisType × Int × Nat))
    (t0 t1 tmd : Nat) (tmm thr : Int)
    (hthr : tmm < thr) (hdur : t1 - t0 ≤ tmd)
    (hmov : ∀ n t, evolve (MultiTouchTracker.new 4) (mids.take n) = some t →
      t.max_movement_from_start ≤ tmm) :
    run_events
        ((⟨InputEventKind.key KeyCode.BTN_TOOL_QUADTAP, 1⟩, t0) ::
          ((mids.map fun m => (⟨InputEventKind.absAxis m.1, m.2.1⟩, m.2.2)) ++
            [(⟨InputEventKind.key KeyCode.BTN_TOOL_QUADTAP, 0⟩, t1)]))
        GestureState.Idle 4 tmd tmm thr =
      some (GestureState.Idle,
            GestureEvent.FingersDown ::
              (List.replicate mids.length GestureEvent.None ++
                [GestureEvent.FingersUp])) ∧
    (GestureEvent.FingersDown ::
        (List.replicate mids.length GestureEvent.None ++
          [GestureEvent.FingersUp])).count GestureEvent.FingersUp = 1 ∧
    ∀ d, (GestureEvent.FingersDown ::
        (List.replicate mids.length GestureEvent.None ++
          [GestureEvent.FingersUp])).count (GestureEvent.SwipeDetected d) = 0 := by
  have hWF : (MultiTouchTracker.new 4).WF := ⟨rfl, by decide⟩
  obtain ⟨tF, hev, hwF, hrun⟩ :=
    run_mids tmd tmm thr hthr mids (MultiTouchTracker.new 4) t0 hWF hmov
  have hmaxF : tF.max_movement_from_start ≤ tmm := by
    apply hmov mids.length tF
    rw [List.take_length]
    exact hev
  have hpress : process_event ⟨InputEventKind.key KeyCode.BTN_TOOL_QUADTAP, 1⟩
      GestureState.Idle 4 tmd tmm thr t0 =
      some (GestureState.FingersDown t0 (MultiTouchTracker.new 4),
            GestureEvent.FingersDown) := rfl
  have hrel : process_event ⟨InputEventKind.key KeyCode.BTN_TOOL_QUADTAP, 0⟩
      (GestureState.FingersDown t0 tF) 4 tmd tmm thr t1 =
      some (GestureState.Idle, GestureEvent.FingersUp) := by
    simp [process_event, tap_key, hdur, hmaxF]
  have hlast : run_events
      [(⟨InputEventKind.key KeyCode.BTN_TOOL_QUADTAP, 0⟩, t1)]
      (GestureState.FingersDown t0 tF) 4 tmd tmm thr =
      some (GestureState.Idle, [GestureEvent.FingersUp]) := by
    simp [run_events, hrel]
  refine ⟨?_, ?_, ?_⟩
  · simp only [run_events, hpress]
    rw [run_events_append, hrun]
    simp [hlast]
  · simp [List.count_cons, List.count_append, List.count_replicate]
  · intro d
    simp [List.count_cons, List.count_append, List.count_replicate]

/-- Claim C6 witness: a bare 4-finger tap (no position events) yields
`FingersDown` then `FingersUp`. -/
theorem c6_four_finger_tap_witness :
    run_events
        [(⟨InputEventKind.key KeyCode.BTN_TOOL_QUADTAP, 1⟩, 0),
         (⟨InputEventKind.key KeyCode.BTN_TOOL_QUADTAP, 0⟩, 100)]
        GestureState.Idle 4 250 500 501 =
      some (GestureState.Idle,
            [GestureEvent.FingersDown, GestureEvent.FingersUp]) := by
  have h := c6_four_finger_tap [] 0 100 250 500 501 (by norm_num) (by norm_num)
    (fun n t ht => by
      have ht2 : MultiTouchTracker.new 4 = t := by
        simp [evolve] at ht
        exact ht
      subst ht2
      decide)
  simpa using h.1

/-- The absolute-axis events of the C6 counterexample: four fingers settle at
their start positions (movement 0) with no later movement. -/
def c6_cex_mids : List (AxisType × Int × Nat) :=
  [ (AxisType.ABS_MT_SLOT, 0, 1), (AxisType.ABS_MT_POSITION_X, 100, 1),
    (AxisType.ABS_MT_POSITION_Y, 100, 1),
    (AxisType.ABS_MT_SLOT, 1, 2), (AxisType.ABS_MT_POSITION_X, 110, 2),
    (AxisType.ABS_MT_POSITION_Y, 100, 2),
    (AxisType.ABS_MT_SLOT, 2, 3), (AxisType.ABS_MT_POSITION_X, 100, 3),
    (AxisType.ABS_MT_POSITION_Y, 110, 3),
    (AxisType.ABS_MT_SLOT, 3, 4), (AxisType.ABS_MT_POSITION_X, 110, 4),
    (AxisType.ABS_MT_POSITION_Y, 110, 4) ]

/-- The full C6 counterexample sequence: 4-finger press at t=0, the settle
events, release at t=120 (within the 250ms tap duration). -/
def c6_cex_events : List (InputEvent × Nat) :=
  (⟨InputEventKind.key KeyCode.BTN_TOOL_QUADTAP, 1⟩, 0) ::
    ((c6_cex_mids.map fun m => (⟨InputEventKind.absAxis m.1, m.2.1⟩, m.2.2)) ++
      [(⟨InputEventKind.key KeyCode.BTN_TOOL_QUADTAP, 0⟩, 120)])

/-- Claim C6 counterexample: with `swipe_threshold = 0` (≤ `tap_max_movement
= 500`), the same qualifying 4-finger tap sequence — every prefix of the
tracker evolution keeps `max_movement_from_start ≤ 500`, and the release at
t=120 is within the 250ms duration — emits `SwipeDetected Up` and no
`FingersUp`, refuting the claim for arbitrary configured thresholds. -/
theorem c6_early_swipe_counterexample :
    run_events c6_cex_events GestureState.Idle 4 250 500 0 =
      some (GestureState.Idle,
        GestureEvent.FingersDown ::
          (List.replicate 11 GestureEvent.None ++
            [GestureEvent.SwipeDetected SwipeDirection.Up,
             GestureEvent.None])) ∧
    (GestureEvent.FingersDown ::
        (List.replicate 11 GestureEvent.None ++
          [GestureEvent.SwipeDetected SwipeDirection.Up,
           GestureEvent.None])).count GestureEvent.FingersUp = 0 ∧
    ((List.range 13).all fun n =>
      match evolve (MultiTouchTracker.new 4) (c6_cex_mids.take n) with
      | some t => decide (t.max_movement_from_start ≤ 500)
      | none => false) = true ∧
    120 - 0 ≤ 250 := by
  refine ⟨by decide, by decide, by decide, by decide⟩
